import Mathlib

/-
Verification of the realtime audio-to-text streaming core of the
Win-Outlook-Agent repository against its natural-language specification.

The development shallowly embeds the state-bearing parts of
  - src/openai_realtime_client.py  (class OpenAIRealtimeAudioTextClient),
  - src/audio_service.py           (classes AudioProcessor, AudioRecordingService),
  - src/voice_email_workflow.py    (method VoiceEmailWorkflow.stop_and_process)
as pure Lean functions on explicit state records.  Network and hardware
effects (the websocket itself, sounddevice streams, logging) carry no
program-visible state beyond what the records track, so each Python method
becomes a function from the old record to the new record plus its return
value.  Timeouts are modelled by whether the awaited condition holds in the
state at the moment the wait resolves.
-/

set_option maxRecDepth 4000

/-- State of `OpenAIRealtimeAudioTextClient` (src/openai_realtime_client.py).
`ws` is whether `self.ws` is non-None, `receive_task` whether a live receive
task exists, `response_event` whether the `asyncio.Event` is set.  The
constant configuration attributes (`api_key`, `base_url`, `message_handlers`)
never change and are omitted; `model` is kept as written. -/
structure OpenAIRealtimeAudioTextClient where
  model : String
  ws : Bool
  session_id : Option String
  response_finished : Bool
  concatenated_text_buffer : String
  response_event : Bool
  receive_task : Bool
deriving DecidableEq

/-- Inbound server events dispatched by `_on_message`.  All event types other
than `response.text.delta` and `response.text.done` are handled by the
generic/error loggers, which only log and change no state; they are folded
into `other`. -/
inductive RealtimeEvent where
  | textDelta (delta : String)
  | textDone (text : String)
  | other (event_type : String)
deriving DecidableEq

namespace OpenAIRealtimeAudioTextClient

/-- The `__init__` state (lines 14-27): no socket, unset event, empty
transcript buffer, `response_finished = False`. -/
def init : OpenAIRealtimeAudioTextClient :=
  { model := "gpt-4o-realtime-preview"
    ws := false
    session_id := none
    response_finished := false
    concatenated_text_buffer := ""
    response_event := false
    receive_task := false }

/-- `connect` (lines 128-146), success path: opens the websocket, sends the
session configuration, and spawns the receive task.  It touches no other
attribute — in particular neither `concatenated_text_buffer` nor
`response_event` nor `response_finished`. -/
def connect (c : OpenAIRealtimeAudioTextClient) : OpenAIRealtimeAudioTextClient :=
  { c with ws := true, receive_task := true }

/-- `disconnect` (lines 228-241): closes the socket and cancels the receive
task when a socket exists, then clears `ws` and `session_id`. -/
def disconnect (c : OpenAIRealtimeAudioTextClient) : OpenAIRealtimeAudioTextClient :=
  { c with ws := false
           session_id := none
           receive_task := if c.ws then false else c.receive_task }

/-- `response_done_handler` (lines 243-247): marks the response finished and
sets the completion event. -/
def response_done_handler (c : OpenAIRealtimeAudioTextClient) :
    OpenAIRealtimeAudioTextClient :=
  { c with response_finished := true, response_event := true }

/-- `_handle_text_delta` (lines 262-266): only logs the delta.  The append to
`concatenated_text_buffer` is commented out in the source, so the state is
returned unchanged. -/
def handle_text_delta (c : OpenAIRealtimeAudioTextClient) (_delta : String) :
    OpenAIRealtimeAudioTextClient :=
  c

/-- `_handle_text_done` (lines 269-274): appends the final `text` payload to
the transcript buffer and runs `response_done_handler`. -/
def handle_text_done (c : OpenAIRealtimeAudioTextClient) (text : String) :
    OpenAIRealtimeAudioTextClient :=
  response_done_handler
    { c with concatenated_text_buffer := c.concatenated_text_buffer ++ text }

/-- `_on_message` dispatch (lines 92-106) through the `message_handlers`
table (lines 26-55): deltas go to `_handle_text_delta`, done events to
`_handle_text_done`, everything else to log-only handlers. -/
def on_message (c : OpenAIRealtimeAudioTextClient) :
    RealtimeEvent → OpenAIRealtimeAudioTextClient
  | RealtimeEvent.textDelta d => c.handle_text_delta d
  | RealtimeEvent.textDone t => c.handle_text_done t
  | RealtimeEvent.other _ => c

/-- Result of `wait_for_response`: the state after the call, the returned
boolean (`True` on completion, `False` on timeout — the `TimeoutError` is
caught inside, so the call never raises), and whether the `finally` block
called `disconnect`. -/
structure WaitResult where
  client : OpenAIRealtimeAudioTextClient
  returned : Bool
  disconnected : Bool
deriving DecidableEq

/-- `wait_for_response` (lines 249-260).  `response_event` in the input state
says whether the completion event is set by the time the 10 s wait resolves:
if so the wait succeeds, the event is cleared and `True` is returned; on
timeout `False` is returned.  Either way the `finally` block disconnects
exactly when `response_finished` is set. -/
def wait_for_response (c : OpenAIRealtimeAudioTextClient) : WaitResult :=
  if c.response_event then
    let c1 := { c with response_event := false }
    if c1.response_finished then
      { client := c1.disconnect, returned := true, disconnected := true }
    else
      { client := c1, returned := true, disconnected := false }
  else
    if c.response_finished then
      { client := c.disconnect, returned := false, disconnected := true }
    else
      { client := c, returned := false, disconnected := false }

end OpenAIRealtimeAudioTextClient

/-- State of `AudioProcessor` (src/audio_service.py lines 16-21).  Its
`__init__(target_sample_rate)` always fixes `source_sample_rate = 48000`. -/
structure AudioProcessor where
  target_sample_rate : Nat
  source_sample_rate : Nat
deriving DecidableEq

/-- Audio chunks are sequences of signed 16-bit PCM samples; a Python `bytes`
chunk of 2·n bytes is modelled as its n samples. -/
abbrev Chunk := List Int

/-- Model of `scipy.signal.resample_poly(x, up, down)` restricted to its
documented input/output contract: the output holds `⌈n·up/down⌉` samples for
`n` input samples.  The filtered sample values themselves are floating-point
and are not modelled (no claim in this development depends on them); every
output sample is rendered as 0, and proofs that distinguish a resampled chunk
from its input do so through the output length alone. -/
def resample_poly (x : Chunk) (up down : Nat) : Chunk :=
  List.replicate ((x.length * up + down - 1) / down) 0

/-- `AudioProcessor.process_audio_chunk` (lines 23-40): identity fast path
when the rates agree, polyphase resampling otherwise. -/
def AudioProcessor.process_audio_chunk (p : AudioProcessor) (audio_data : Chunk) :
    Chunk :=
  if p.target_sample_rate = p.source_sample_rate then audio_data
  else resample_poly audio_data p.target_sample_rate p.source_sample_rate

/-- State of `AudioRecordingService` (lines 42-68).  `audio_data` is the
CaptureBuffer (list of appended chunks, oldest first), `audio_queue` the
bounded asyncio queue (front = oldest).  `has_volume_callback` records
whether `_volume_callback` is non-None, and `volume_calls` is
instrumentation listing the frames for which the stored volume callback was
actually invoked — the source never invokes it, so no operation below ever
extends this list. -/
structure AudioRecordingService where
  sample_rate : Nat
  target_sample_rate : Nat
  channels : Nat
  recording : Bool
  audio_data : List Chunk
  has_volume_callback : Bool
  volume_calls : List Chunk
  stream : Bool
  audio_queue : List Chunk
  queue_maxsize : Nat
  audio_processor : AudioProcessor
deriving DecidableEq

/-- Errors of §7 of the spec that the audio service could raise. -/
inductive AudioError where
  | alreadyRecording
  | deviceUnavailable
deriving DecidableEq

namespace AudioRecordingService

/-- The `__init__` state with the default arguments
(`sample_rate=48000, channels=1, target_sample_rate=24000`), lines 46-68:
not recording, empty buffers, `asyncio.Queue(maxsize=100)`. -/
def init : AudioRecordingService :=
  { sample_rate := 48000
    target_sample_rate := 24000
    channels := 1
    recording := false
    audio_data := []
    has_volume_callback := false
    volume_calls := []
    stream := false
    audio_queue := []
    queue_maxsize := 100
    audio_processor := { target_sample_rate := 24000, source_sample_rate := 48000 } }

/-- `start_recording` (lines 132-158), hardware stream opening taken as
succeeding.  When a recording is already in progress the method logs
"Recording already in progress" and plainly returns — it raises nothing, so
the result is `Except.ok` on every path; the returned flag says whether a new
capture was actually started.  Otherwise the capture buffer is cleared, the
volume callback stored, the stream opened and `recording` set. -/
def start_recording (s : AudioRecordingService) (volume_callback : Bool) :
    Except AudioError (AudioRecordingService × Bool) :=
  if s.recording then Except.ok (s, false)
  else
    Except.ok ({ s with audio_data := []
                        has_volume_callback := volume_callback
                        stream := true
                        recording := true }, true)

/-- The enqueue step of the closure `process_and_queue` inside
`_audio_callback` (lines 183-197): if the queue is not full the processed
chunk is enqueued; if it is full, `get_nowait` evicts the oldest entry and
the new chunk is enqueued (when `get_nowait` finds the queue empty the
`QueueEmpty` handler drops the chunk).  An `asyncio.Queue` is full when
`0 < maxsize ≤ qsize`. -/
def process_and_queue (maxsize : Nat) (q : List Chunk) (processed_audio : Chunk) :
    List Chunk :=
  if maxsize = 0 ∨ q.length < maxsize then q ++ [processed_audio]
  else
    match q with
    | [] => []
    | _ :: rest => rest ++ [processed_audio]

/-- `_audio_callback` (lines 172-200).  On input overflow it returns at once.
Otherwise it resamples the incoming frame through
`audio_processor.process_audio_chunk`, appends that processed chunk (not the
raw frame) to `audio_data`, and enqueues the same processed chunk with the
evict-oldest-on-full policy.  No volume magnitude is computed and the stored
`_volume_callback` is never invoked, so `volume_calls` stays as it was. -/
def audio_callback (s : AudioRecordingService) (indata : Chunk)
    (input_overflow : Bool) : AudioRecordingService :=
  if input_overflow then s
  else
    let processed := s.audio_processor.process_audio_chunk indata
    { s with audio_data := s.audio_data ++ [processed]
             audio_queue := process_and_queue s.queue_maxsize s.audio_queue processed
             volume_calls := s.volume_calls }

/-- `stop_recording` (lines 202-239): when not recording it warns and returns
an empty buffer.  Otherwise it closes the stream, clears `recording`, returns
an empty buffer early when the capture buffer is empty (note: without
touching the queue), and otherwise concatenates all captured chunks, empties
the queue, and returns the concatenation. -/
def stop_recording (s : AudioRecordingService) :
    AudioRecordingService × Chunk :=
  if s.recording then
    let s1 := { s with stream := false, recording := false }
    if s1.audio_data = [] then (s1, [])
    else ({ s1 with audio_queue := [] }, s1.audio_data.flatten)
  else (s, [])

/-- `get_audio_chunk` (lines 241-249): pops the oldest queued chunk, or
returns `none` when the 0.1 s wait times out on an empty queue. -/
def get_audio_chunk (s : AudioRecordingService) :
    Option Chunk × AudioRecordingService :=
  match s.audio_queue with
  | [] => (none, s)
  | c :: rest => (some c, { s with audio_queue := rest })

end AudioRecordingService

/-- One interleaving step of the recording phase: either the hardware thread
delivers a frame to `_audio_callback` (without overflow), or the streaming
pump consumes one chunk via `get_audio_chunk`. -/
inductive AudioOp where
  | frame (data : Chunk)
  | consume
deriving DecidableEq

/-- Apply one recording-phase step to the service state. -/
def apply_op (s : AudioRecordingService) : AudioOp → AudioRecordingService
  | AudioOp.frame f => s.audio_callback f false
  | AudioOp.consume => (s.get_audio_chunk).2

/-- Run a sequence of recording-phase steps. -/
def run_ops (s : AudioRecordingService) (ops : List AudioOp) :
    AudioRecordingService :=
  ops.foldl apply_op s

/-- Service state right after a successful `start_recording` on a fresh
service (the state `start_recording` produces from `init`). -/
def fresh_recording_service : AudioRecordingService :=
  { AudioRecordingService.init with stream := true, recording := true }

/-- Outcome of `stop_and_process`'s stop-and-drain prefix
(src/voice_email_workflow.py lines 94-119): the service state afterwards, the
retained audio `self._current_audio_data` after the drain loop, and how many
chunks that loop drained. -/
structure DrainResult where
  service : AudioRecordingService
  retained : Chunk
  chunks_drained : Nat
deriving DecidableEq

/-- The stop-and-drain prefix of `stop_and_process` (lines 94-119):
`stop_recording` runs first (returning the concatenated capture buffer and
clearing the queue on its main path); an empty result raises
`ValueError("No audio data recorded")`; otherwise the retained buffer starts
as the returned audio and the drain loop pops every chunk still in the queue,
appending each to the retained buffer. -/
def stop_and_drain (s : AudioRecordingService) : Except String DrainResult :=
  let p := s.stop_recording
  if p.2 = [] then Except.error "No audio data recorded"
  else
    Except.ok
      { service := { p.1 with audio_queue := [] }
        retained := p.2 ++ p.1.audio_queue.flatten
        chunks_drained := p.1.audio_queue.length }

/-- Environment of one attempt of the retry loop in `stop_and_process`
(src/voice_email_workflow.py lines 126-184): either no completion event
arrives within the 10 s window (`timeout`), or the server delivers a
`response.text.done` event with the given final text before the window
closes (`completes`). -/
inductive AttemptEnv where
  | timeout
  | completes (text : String)
deriving DecidableEq

/-- The two hard errors the retry loop can raise after exhausting its
attempts: `RuntimeError("Response timeout after all retries")` and
`RuntimeError("No transcription received after all retries")`. -/
inductive WorkflowError where
  | responseTimeout
  | noTranscription
deriving DecidableEq

/-- How one attempt of the retry loop ended: success breaks out of the loop
with the transcript; a retryable outcome continues (or raises the carried
error on the final attempt). -/
inductive AttemptOutcome where
  | success (transcript : String)
  | retryable (err : WorkflowError)
deriving DecidableEq

/-- Client state plus the running count of `connect()` calls made so far in
the workflow cycle. -/
structure AttemptState where
  client : OpenAIRealtimeAudioTextClient
  connect_calls : Nat
deriving DecidableEq

/-- One iteration of the retry loop body (lines 128-184).  First the loop
reconnects only when `self.openai_client.ws` is gone (lines 133-136),
counting a `connect()` call; re-sending the retained audio, `commit_audio`
and `start_response` (lines 139-154) change none of the modelled state (the
socket is live at that point, so their lazy-reconnect branches are dead).
Then the loop awaits `wait_for_response` under an outer 10 s
`asyncio.wait_for` (lines 157-160).  In the `completes t` environment the
receive task handles the done event, the wait returns and its `finally`
disconnects; the loop then retries on an empty transcript buffer and breaks
with the buffer otherwise (lines 164-174).  In the `timeout` environment the
outer `asyncio.wait_for` (whose clock started earlier than the inner one)
raises `asyncio.TimeoutError`, cancelling the wait — whose `finally` block
still runs, disconnecting exactly when `response_finished` is already set —
and the `except` arm retries (lines 176-181). -/
def run_one_attempt (st : AttemptState) (env : AttemptEnv) :
    AttemptState × AttemptOutcome :=
  let c0 := if st.client.ws then st.client else st.client.connect
  let calls := if st.client.ws then st.connect_calls else st.connect_calls + 1
  match env with
  | AttemptEnv.completes t =>
      let wr := (c0.on_message (RealtimeEvent.textDone t)).wait_for_response
      if wr.client.concatenated_text_buffer = "" then
        ({ client := wr.client, connect_calls := calls },
          AttemptOutcome.retryable WorkflowError.noTranscription)
      else
        ({ client := wr.client, connect_calls := calls },
          AttemptOutcome.success wr.client.concatenated_text_buffer)
  | AttemptEnv.timeout =>
      let c1 := if c0.response_finished then c0.disconnect else c0
      ({ client := c1, connect_calls := calls },
        AttemptOutcome.retryable WorkflowError.responseTimeout)

/-- `max_retries = 3` (line 127). -/
def max_retries : Nat := 3

deriving instance DecidableEq for Except

/-- Result of the retry loop: final client state, total `connect()` calls,
number of loop iterations executed, and the returned transcript or raised
hard error. -/
structure FinalizeResult where
  client : OpenAIRealtimeAudioTextClient
  connect_calls : Nat
  attempts_made : Nat
  result : Except WorkflowError String
deriving DecidableEq

/-- The `for attempt in range(max_retries)` loop (lines 128-184), as a
recursion on the number of attempts remaining; `idx` is the index of the
attempt about to run.  Success breaks with the transcript; a retryable
outcome continues when attempts remain and raises its hard error on the last
attempt.  The fuel-0 case is unreachable from `run_workflow_cycle`
(`max_retries = 3 ≥ 1`). -/
def finalize_aux (envs : Nat → AttemptEnv) : Nat → Nat → AttemptState → FinalizeResult
  | idx, 0, st =>
      { client := st.client, connect_calls := st.connect_calls
        attempts_made := idx, result := Except.error WorkflowError.responseTimeout }
  | idx, remaining + 1, st =>
      match run_one_attempt st (envs idx) with
      | (st1, AttemptOutcome.success t) =>
          { client := st1.client, connect_calls := st1.connect_calls
            attempts_made := idx + 1, result := Except.ok t }
      | (st1, AttemptOutcome.retryable e) =>
          match remaining with
          | 0 =>
              { client := st1.client, connect_calls := st1.connect_calls
                attempts_made := idx + 1, result := Except.error e }
          | r + 1 => finalize_aux envs (idx + 1) (r + 1) st1

/-- One workflow cycle's session history as `stop_and_process` sees it:
`start_recording` made the initial `connect()` on a fresh client
(src/voice_email_workflow.py line 45), so the loop starts with a live socket
and one connect call already made, and runs its `max_retries` attempts under
the given per-attempt environments. -/
def run_workflow_cycle (envs : Nat → AttemptEnv) : FinalizeResult :=
  finalize_aux envs 0 max_retries
    { client := OpenAIRealtimeAudioTextClient.init.connect, connect_calls := 1 }

/-- The spec §8 scenario: attempts 0 and 1 time out, attempt 2 completes with
a non-empty transcript. -/
def scenario_envs : Nat → AttemptEnv := fun i =>
  if i < 2 then AttemptEnv.timeout else AttemptEnv.completes "Hello"

/-- An environment in which no attempt ever completes. -/
def timeout_envs : Nat → AttemptEnv := fun _ => AttemptEnv.timeout

/-- A connected client that has received a `response.text.done` event with
final text "old": its transcript buffer is non-empty and its completion
signal has fired. -/
def done_client : OpenAIRealtimeAudioTextClient :=
  (OpenAIRealtimeAudioTextClient.init.connect).on_message
    (RealtimeEvent.textDone "old")

/-- A client whose response completed and whose `wait_for_response` already
succeeded once: `response_finished` is set, the event is cleared, and the
socket is closed. -/
def finished_idle_client : OpenAIRealtimeAudioTextClient :=
  (((OpenAIRealtimeAudioTextClient.init.connect).on_message
      (RealtimeEvent.textDone "x")).wait_for_response).client

/-- A mid-recording service state at stop time: three chunks were produced
(all recorded in the capture buffer), the streaming pump consumed the first,
and chunks `[2]` and `[3]` are still unread in the queue. -/
def c7state : AudioRecordingService :=
  { fresh_recording_service with
      audio_data := [[1], [2], [3]]
      audio_queue := [[2], [3]] }

/-- Two hardware frames delivered with no pump consumption: both processed
chunks are still unread in the queue at stop time. -/
def c7ops : List AudioOp := [AudioOp.frame [1, 2], AudioOp.frame [3, 4]]

/-- The drain result that `stop_and_drain` yields on the `c7ops` run. -/
def c7r : DrainResult :=
  (stop_and_drain (run_ops fresh_recording_service c7ops)).toOption.getD
    { service := AudioRecordingService.init, retained := [], chunks_drained := 0 }

/-- The service state `start_recording` produces from a fresh service when a
volume callback is supplied. -/
def c8service : AudioRecordingService :=
  { fresh_recording_service with has_volume_callback := true }

/-
Helper lemmas shared by the claim theorems.
-/

/-- Enqueuing with the evict-oldest policy never grows the queue past a
positive capacity. -/
theorem process_and_queue_length_le (maxsize : Nat) (q : List Chunk) (c : Chunk)
    (h0 : 0 < maxsize) (h : q.length ≤ maxsize) :
    (AudioRecordingService.process_and_queue maxsize q c).length ≤ maxsize := by
  unfold AudioRecordingService.process_and_queue
  by_cases hfull : maxsize = 0 ∨ q.length < maxsize
  · rw [if_pos hfull]
    rcases hfull with h1 | h1
    · omega
    · simp only [List.length_append, List.length_cons, List.length_nil]
      omega
  · rw [if_neg hfull]
    cases q with
    | nil => simp
    | cons hd rest =>
        simp only [List.length_append, List.length_cons, List.length_nil]
        simp only [List.length_cons] at h
        omega

/-- Every element of the queue after an evict-oldest enqueue was already in
the queue or is the newly enqueued chunk. -/
theorem mem_process_and_queue {maxsize : Nat} {q : List Chunk} {p c : Chunk}
    (h : c ∈ AudioRecordingService.process_and_queue maxsize q p) :
    c ∈ q ∨ c = p := by
  unfold AudioRecordingService.process_and_queue at h
  split at h
  · rcases List.mem_append.1 h with h1 | h1
    · exact Or.inl h1
    · simp at h1
      exact Or.inr h1
  · cases q with
    | nil => simp at h
    | cons hd rest =>
        rcases List.mem_append.1 h with h1 | h1
        · exact Or.inl (List.mem_cons_of_mem _ h1)
        · simp at h1
          exact Or.inr h1

/-- The audio callback leaves the service configuration fields and the
recording flag unchanged. -/
theorem audio_callback_preserves (s : AudioRecordingService) (f : Chunk)
    (ov : Bool) :
    (s.audio_callback f ov).recording = s.recording
    ∧ (s.audio_callback f ov).queue_maxsize = s.queue_maxsize
    ∧ (s.audio_callback f ov).audio_processor = s.audio_processor
    ∧ (s.audio_callback f ov).volume_calls = s.volume_calls := by
  cases ov <;> simp [AudioRecordingService.audio_callback]

/-- Folding hardware frames through the audio callback appends exactly the
processed chunks, in arrival order, to the capture buffer. -/
theorem run_frames_audio_data (frames : List Chunk) :
    ∀ s : AudioRecordingService,
      (frames.foldl (fun t f => t.audio_callback f false) s).audio_data
        = s.audio_data ++ frames.map s.audio_processor.process_audio_chunk
      ∧ (frames.foldl (fun t f => t.audio_callback f false) s).recording
        = s.recording := by
  induction frames with
  | nil => intro s; simp
  | cons f fs ih =>
      intro s
      have h := ih (s.audio_callback f false)
      simp only [List.foldl_cons, List.map_cons] at h ⊢
      refine ⟨?_, ?_⟩
      · rw [h.1]
        simp [AudioRecordingService.audio_callback, List.append_assoc]
      · rw [h.2]
        simp [AudioRecordingService.audio_callback]

/-- Folding hardware frames through the audio callback keeps the queue
within a positive capacity. -/
theorem run_frames_queue_le (frames : List Chunk) :
    ∀ s : AudioRecordingService, 0 < s.queue_maxsize →
      s.audio_queue.length ≤ s.queue_maxsize →
      (frames.foldl (fun t f => t.audio_callback f false) s).audio_queue.length
        ≤ s.queue_maxsize := by
  induction frames with
  | nil => intro s h0 h; simpa using h
  | cons f fs ih =>
      intro s h0 h
      simp only [List.foldl_cons]
      have hm := (audio_callback_preserves s f false).2.1
      have hstep : (s.audio_callback f false).audio_queue.length
          ≤ (s.audio_callback f false).queue_maxsize := by
        rw [hm]
        simp only [AudioRecordingService.audio_callback, if_neg Bool.false_ne_true]
        exact process_and_queue_length_le _ _ _ h0 h
      have := ih (s.audio_callback f false) (by rw [hm]; exact h0) hstep
      rwa [hm] at this

/-- One recording-phase step preserves the recording flag and the property
that every queued chunk also sits in the capture buffer (the callback adds
each processed chunk to both; eviction and consumption only remove from the
queue). -/
theorem apply_op_invariant (s : AudioRecordingService) (op : AudioOp)
    (h : ∀ c ∈ s.audio_queue, c ∈ s.audio_data) :
    (apply_op s op).recording = s.recording
    ∧ ∀ c ∈ (apply_op s op).audio_queue, c ∈ (apply_op s op).audio_data := by
  cases op with
  | frame f =>
      refine ⟨(audio_callback_preserves s f false).1, ?_⟩
      intro c hc
      simp only [apply_op, AudioRecordingService.audio_callback,
        if_neg Bool.false_ne_true] at hc ⊢
      rcases mem_process_and_queue hc with h1 | h1
      · exact List.mem_append.2 (Or.inl (h c h1))
      · exact List.mem_append.2 (Or.inr (by simp [h1]))
  | consume =>
      cases hq : s.audio_queue with
      | nil =>
          refine ⟨by simp [apply_op, AudioRecordingService.get_audio_chunk, hq], ?_⟩
          intro c hc
          simp [apply_op, AudioRecordingService.get_audio_chunk, hq] at hc
      | cons hd rest =>
          refine ⟨by simp [apply_op, AudioRecordingService.get_audio_chunk, hq], ?_⟩
          intro c hc
          simp [apply_op, AudioRecordingService.get_audio_chunk, hq] at hc ⊢
          exact h c (by simp [hq]; exact Or.inr hc)

/-- Running any interleaving of hardware frames and pump consumptions keeps
the recording flag and keeps every queued chunk present in the capture
buffer. -/
theorem run_ops_invariant (ops : List AudioOp) :
    ∀ s : AudioRecordingService,
      (∀ c ∈ s.audio_queue, c ∈ s.audio_data) →
      (run_ops s ops).recording = s.recording
      ∧ ∀ c ∈ (run_ops s ops).audio_queue, c ∈ (run_ops s ops).audio_data := by
  induction ops with
  | nil => intro s h; exact ⟨rfl, h⟩
  | cons op rest ih =>
      intro s h
      have hstep := apply_op_invariant s op h
      have hrest := ih (apply_op s op) hstep.2
      exact ⟨by simpa [run_ops] using hrest.1.trans hstep.1,
        by simpa [run_ops] using hrest.2⟩

/-- The retry loop runs at most `remaining` further iterations beyond index
`idx`. -/
theorem finalize_aux_attempts_le (envs : Nat → AttemptEnv) :
    ∀ (remaining idx : Nat) (st : AttemptState),
      (finalize_aux envs idx remaining st).attempts_made ≤ idx + remaining := by
  intro remaining
  induction remaining with
  | zero => intro idx st; simp [finalize_aux]
  | succ r ih =>
      intro idx st
      unfold finalize_aux
      rcases hr : run_one_attempt st (envs idx) with ⟨st1, out⟩
      cases out with
      | success t => simp
      | retryable e =>
          cases r with
          | zero => simp
          | succ r2 =>
              have := ih (idx + 1) st1
              simp only []
              omega

/-- A hard error escapes the retry loop only from its final iteration. -/
theorem finalize_aux_error_attempts (envs : Nat → AttemptEnv) :
    ∀ (remaining idx : Nat) (st : AttemptState) (e : WorkflowError),
      1 ≤ remaining →
      (finalize_aux envs idx remaining st).result = Except.error e →
      (finalize_aux envs idx remaining st).attempts_made = idx + remaining := by
  intro remaining
  induction remaining with
  | zero => intro idx st e h1; omega
  | succ r ih =>
      intro idx st e _ herr
      unfold finalize_aux at herr ⊢
      rcases hr : run_one_attempt st (envs idx) with ⟨st1, out⟩
      rw [hr] at herr
      cases out with
      | success t => simp at herr
      | retryable e2 =>
          cases r with
          | zero =>
              show idx + 1 = idx + (0 + 1)
              omega
          | succ r2 =>
              show (finalize_aux envs (idx + 1) (r2 + 1) st1).attempts_made
                = idx + (r2 + 1 + 1)
              have := ih (idx + 1) st1 e (by omega) herr
              omega

/-
Claim theorems.
-/

/-- C1, counterexample: a `response.text.delta` event with delta "Hi"
dispatched to a freshly connected client leaves the TranscriptAccumulator
unchanged (empty) instead of appending "Hi" — the delta append is commented
out in `_handle_text_delta`, so the claim that every delta event appends its
text is false. -/
theorem C1_counterexample :
    ((OpenAIRealtimeAudioTextClient.init.connect).on_message
        (RealtimeEvent.textDelta "Hi")).concatenated_text_buffer
      ≠ (OpenAIRealtimeAudioTextClient.init.connect).concatenated_text_buffer
          ++ "Hi" := by
  decide

/-- C1, amended: in the receive dispatch, every `response.text.delta` event
leaves the TranscriptAccumulator unchanged and fires no completion signal
(it is only logged), while every `response.text.done` event appends its
final text to the TranscriptAccumulator and fires the completion signal
(sets the flag and the event that unblocks a waiter). -/
theorem C1_dispatch_delta_done (c : OpenAIRealtimeAudioTextClient)
    (d t : String) :
    (c.on_message (RealtimeEvent.textDelta d)).concatenated_text_buffer
        = c.concatenated_text_buffer
    ∧ (c.on_message (RealtimeEvent.textDelta d)).response_event
        = c.response_event
    ∧ (c.on_message (RealtimeEvent.textDelta d)).response_finished
        = c.response_finished
    ∧ (c.on_message (RealtimeEvent.textDone t)).concatenated_text_buffer
        = c.concatenated_text_buffer ++ t
    ∧ (c.on_message (RealtimeEvent.textDone t)).response_event = true
    ∧ (c.on_message (RealtimeEvent.textDone t)).response_finished = true :=
  ⟨rfl, rfl, rfl, rfl, rfl, rfl⟩

/-- C2, counterexample: calling `connect()` on a client whose accumulator
holds "old" and whose completion signal has fired leaves both exactly as
they were — `connect` resets neither to the claimed fresh state. -/
theorem C2_counterexample :
    (done_client.connect).concatenated_text_buffer = "old"
    ∧ ("old" : String) ≠ ""
    ∧ (done_client.connect).response_event = true
    ∧ (done_client.connect).response_finished = true := by
  decide

/-- C2, amended: `connect()` leaves the TranscriptAccumulator, the
completion event and the `response_finished` flag untouched; they are
empty/unfired only because `__init__` sets them so at construction, not
because `connect()` resets them. -/
theorem C2_connect_preserves (c : OpenAIRealtimeAudioTextClient) :
    (c.connect).concatenated_text_buffer = c.concatenated_text_buffer
    ∧ (c.connect).response_event = c.response_event
    ∧ (c.connect).response_finished = c.response_finished
    ∧ OpenAIRealtimeAudioTextClient.init.concatenated_text_buffer = ""
    ∧ OpenAIRealtimeAudioTextClient.init.response_event = false
    ∧ OpenAIRealtimeAudioTextClient.init.response_finished = false :=
  ⟨rfl, rfl, rfl, rfl, rfl, rfl⟩

/-- C3: `wait_for_response` is a total function — a timed-out wait returns
`false` (the `TimeoutError` is caught, never re-raised), a wait during which
the completion signal fired returns `true`, and whenever the response is
complete (`response_finished`) the call triggers `disconnect()` from its
`finally` block. -/
theorem C3_wait_for_response_contract (c : OpenAIRealtimeAudioTextClient) :
    ((c.wait_for_response).returned = false ↔ c.response_event = false)
    ∧ ((c.wait_for_response).returned = true ↔ c.response_event = true)
    ∧ (c.response_finished = true →
        (c.wait_for_response).disconnected = true
        ∧ (c.wait_for_response).client.ws = false) := by
  unfold OpenAIRealtimeAudioTextClient.wait_for_response
  cases he : c.response_event <;> cases hf : c.response_finished <;>
    simp [OpenAIRealtimeAudioTextClient.disconnect, hf]

/-- C3, witness at a client whose response completed and whose event was
already consumed: the wait times out (returns false) yet still triggers
disconnection. -/
theorem C3_wait_for_response_contract_witness :
    finished_idle_client.response_finished = true
    ∧ (finished_idle_client.wait_for_response).disconnected = true
    ∧ (finished_idle_client.wait_for_response).client.ws = false :=
  ⟨rfl, ((C3_wait_for_response_contract finished_idle_client).2.2 rfl).1,
    ((C3_wait_for_response_contract finished_idle_client).2.2 rfl).2⟩

/-- C10: once `response_finished` is set, no operation of the client —
`connect`, `disconnect`, any dispatched event, or `wait_for_response`
itself — ever resets it, and consequently every subsequent
`wait_for_response` call triggers `disconnect()` in its `finally` block,
including a call that times out and returns `false`. -/
theorem C10_response_finished_sticky (c : OpenAIRealtimeAudioTextClient)
    (h : c.response_finished = true) :
    (c.connect).response_finished = true
    ∧ (c.disconnect).response_finished = true
    ∧ (∀ e : RealtimeEvent, (c.on_message e).response_finished = true)
    ∧ (c.wait_for_response).client.response_finished = true
    ∧ (c.wait_for_response).disconnected = true
    ∧ (c.response_event = false →
        (c.wait_for_response).returned = false
        ∧ (c.wait_for_response).disconnected = true) := by
  refine ⟨h, h, ?_, ?_, ?_, ?_⟩
  · intro e
    cases e <;> simp [OpenAIRealtimeAudioTextClient.on_message,
      OpenAIRealtimeAudioTextClient.handle_text_delta,
      OpenAIRealtimeAudioTextClient.handle_text_done,
      OpenAIRealtimeAudioTextClient.response_done_handler, h]
  · unfold OpenAIRealtimeAudioTextClient.wait_for_response
    cases he : c.response_event <;>
      simp [OpenAIRealtimeAudioTextClient.disconnect, h]
  · unfold OpenAIRealtimeAudioTextClient.wait_for_response
    cases he : c.response_event <;>
      simp [OpenAIRealtimeAudioTextClient.disconnect, h]
  · intro he
    unfold OpenAIRealtimeAudioTextClient.wait_for_response
    simp [he, OpenAIRealtimeAudioTextClient.disconnect, h]

/-- C10, witness: a concrete finished client with its event consumed —
`wait_for_response` times out (returns false) and still disconnects, and
the sticky flag survives every operation. -/
theorem C10_response_finished_sticky_witness :
    finished_idle_client.response_finished = true
    ∧ finished_idle_client.response_event = false
    ∧ (finished_idle_client.wait_for_response).returned = false
    ∧ (finished_idle_client.wait_for_response).disconnected = true
    ∧ (finished_idle_client.connect).response_finished = true :=
  ⟨rfl, rfl,
    ((C10_response_finished_sticky finished_idle_client rfl).2.2.2.2.2 rfl).1,
    ((C10_response_finished_sticky finished_idle_client rfl).2.2.2.2.2 rfl).2,
    (C10_response_finished_sticky finished_idle_client rfl).1⟩

/-- C4: over any sequence of producer enqueues, the bounded chunk queue
(capacity 100, as configured by `__init__`) never holds more than 100
chunks; and an enqueue arriving at a full queue removes exactly the oldest
chunk and appends the new one at the back, keeping the surviving chunks in
FIFO order. -/
theorem C4_bounded_queue (frames : List Chunk) :
    ((frames.foldl (fun t f => t.audio_callback f false)
        fresh_recording_service).audio_queue.length ≤ 100)
    ∧ (∀ (q : List Chunk) (c : Chunk), q.length = 100 →
        AudioRecordingService.process_and_queue 100 q c = q.tail ++ [c]) := by
  constructor
  · exact run_frames_queue_le frames fresh_recording_service (by decide) (by decide)
  · intro q c hq
    unfold AudioRecordingService.process_and_queue
    rw [if_neg (by omega)]
    cases q with
    | nil => simp at hq
    | cons hd rest => rfl

/-- C4, witness: pushing one more chunk into a queue already holding 100
chunks evicts exactly the head and appends the newcomer. -/
theorem C4_bounded_queue_witness :
    AudioRecordingService.process_and_queue 100 (List.replicate 100 [0]) [1, 2]
      = (List.replicate 100 ([0] : Chunk)).tail ++ [[1, 2]] :=
  (C4_bounded_queue []).2 (List.replicate 100 [0]) [1, 2] (by simp)

/-- C5, counterexample: in the spec scenario (attempts 1-2 time out,
attempt 3 completes with non-empty text "Hello"), the coordinator does
return "Hello" after exactly 3 processing attempts — but it makes exactly 1
connect call (the initial connection from `start_recording`), not 3: a
timed-out wait leaves `response_finished` false, so `wait_for_response`
never disconnects and `self.openai_client.ws` stays set, making the loop's
reconnect branch dead. -/
theorem C5_counterexample :
    (run_workflow_cycle scenario_envs).result = Except.ok "Hello"
    ∧ (run_workflow_cycle scenario_envs).attempts_made = 3
    ∧ (run_workflow_cycle scenario_envs).connect_calls = 1
    ∧ (run_workflow_cycle scenario_envs).connect_calls ≠ 3 := by
  decide

/-- C5, amended: the finalize phase attempts processing at most 3 times; a
hard error (`Response timeout` / `No transcription`) escapes only from the
final attempt, i.e. after all 3 attempts are exhausted; and in the scenario
where attempts 1-2 time out and attempt 3 yields the non-empty transcript
"Hello", the coordinator returns that transcript after exactly 3 processing
attempts while making exactly 1 connect call in the whole cycle (the initial
connection; timed-out attempts leave the socket open, so the loop never
reconnects). -/
theorem C5_retry_loop (envs : Nat → AttemptEnv) :
    (run_workflow_cycle envs).attempts_made ≤ max_retries
    ∧ (∀ e : WorkflowError,
        (run_workflow_cycle envs).result = Except.error e →
        (run_workflow_cycle envs).attempts_made = max_retries)
    ∧ (run_workflow_cycle scenario_envs).result = Except.ok "Hello"
    ∧ (run_workflow_cycle scenario_envs).attempts_made = max_retries
    ∧ (run_workflow_cycle scenario_envs).connect_calls = 1 := by
  refine ⟨?_, ?_, by decide, by decide, by decide⟩
  · exact finalize_aux_attempts_le envs max_retries 0 _
  · intro e herr
    exact finalize_aux_error_attempts envs max_retries 0 _ e (by decide) herr

/-- C5, witness: with every attempt timing out, the loop raises the hard
response-timeout error and has then made exactly `max_retries` attempts. -/
theorem C5_retry_loop_witness :
    (run_workflow_cycle timeout_envs).result
      = Except.error WorkflowError.responseTimeout
    ∧ (run_workflow_cycle timeout_envs).attempts_made = max_retries :=
  ⟨by decide,
    (C5_retry_loop timeout_envs).2.1 WorkflowError.responseTimeout (by decide)⟩

/-- C6, counterexample: on the default service (48 kHz source, 24 kHz
target) the callback run on the two-sample frame `[5, 7]` stores a chunk of
1 sample in the CaptureBuffer — the resampled output, whose length
`⌈2·24000/48000⌉ = 1` differs from the raw frame's length 2 — so the
callback does not append the raw source-rate frame. -/
theorem C6_counterexample :
    ((fresh_recording_service.audio_callback [5, 7] false).audio_data.map
        List.length = [1])
    ∧ ([5, 7] : Chunk).length = 2
    ∧ (fresh_recording_service.audio_callback [5, 7] false).audio_data
        ≠ [[5, 7]] := by
  refine ⟨by decide, by decide, ?_⟩
  intro h
  have h2 := congrArg (List.map List.length) h
  simp [AudioRecordingService.audio_callback, fresh_recording_service,
    AudioRecordingService.init, AudioProcessor.process_audio_chunk,
    resample_poly] at h2

/-- C6, amended: for every recording cycle the per-frame callback appends
the processed (resampled) frame — `process_audio_chunk` of the raw frame —
to the CaptureBuffer, and `stop_recording()` returns the concatenation of
exactly those processed frames in arrival order. -/
theorem C6_processed_frames (s : AudioRecordingService) (frames : List Chunk)
    (hrec : s.recording = true) (hdata : s.audio_data = []) :
    (frames.foldl (fun t f => t.audio_callback f false) s).audio_data
      = frames.map s.audio_processor.process_audio_chunk
    ∧ ((frames.foldl (fun t f => t.audio_callback f false) s).stop_recording).2
      = (frames.map s.audio_processor.process_audio_chunk).flatten := by
  have h := run_frames_audio_data frames s
  have hdata2 : (frames.foldl (fun t f => t.audio_callback f false) s).audio_data
      = frames.map s.audio_processor.process_audio_chunk := by
    rw [h.1, hdata]; rfl
  refine ⟨hdata2, ?_⟩
  unfold AudioRecordingService.stop_recording
  rw [h.2, hrec, if_pos rfl]
  by_cases hempty : frames.map s.audio_processor.process_audio_chunk = []
  · simp [hdata2, hempty]
  · simp only [hdata2]
    rw [if_neg hempty]

/-- C6, witness: two concrete frames on a fresh recording service — the
capture buffer ends up holding their resampled images and `stop_recording`
returns their concatenation. -/
theorem C6_processed_frames_witness :
    fresh_recording_service.recording = true
    ∧ (([[1, 2], [3, 4, 5, 6]].foldl (fun t f => t.audio_callback f false)
          fresh_recording_service).stop_recording).2
        = ([[1, 2], [3, 4, 5, 6]].map
            fresh_recording_service.audio_processor.process_audio_chunk).flatten :=
  ⟨rfl,
    (C6_processed_frames fresh_recording_service [[1, 2], [3, 4, 5, 6]]
      rfl rfl).2⟩

/-- C7, counterexample: at stop time `c7state` has 2 unread chunks in the
queue, yet the post-stop drain loop drains 0 of them and the retained buffer
is exactly the capture-buffer concatenation `[1, 2, 3]` (not
`[1, 2, 3] ++ [2, 3]` as the claim's drain-and-append would produce):
`stop_recording` empties the queue before the drain loop ever runs. -/
theorem C7_counterexample :
    c7state.audio_queue.length = 2
    ∧ (stop_and_drain c7state).map DrainResult.chunks_drained = Except.ok 0
    ∧ (stop_and_drain c7state).map DrainResult.retained
        = Except.ok [1, 2, 3] := by
  decide

/-- C7, amended: when the pump is cancelled mid-flight, the chunks still
unread in the queue are not appended by the drain loop — `stop_recording`
has already emptied the queue, so that loop drains 0 chunks — but no audio
data is lost: the retained buffer equals the concatenation of every
processed chunk in the capture buffer, and every chunk unread at stop time
is an element of that capture buffer. -/
theorem C7_drain_after_stop (ops : List AudioOp) (r : DrainResult)
    (h : stop_and_drain (run_ops fresh_recording_service ops) = Except.ok r) :
    r.chunks_drained = 0
    ∧ r.retained = (run_ops fresh_recording_service ops).audio_data.flatten
    ∧ ∀ c ∈ (run_ops fresh_recording_service ops).audio_queue,
        c ∈ (run_ops fresh_recording_service ops).audio_data := by
  have hinv := run_ops_invariant ops fresh_recording_service (by simp
    [fresh_recording_service, AudioRecordingService.init])
  have hrec : (run_ops fresh_recording_service ops).recording = true := hinv.1
  refine ?_
  unfold stop_and_drain at h
  unfold AudioRecordingService.stop_recording at h
  rw [hrec, if_pos rfl] at h
  by_cases hempty : (run_ops fresh_recording_service ops).audio_data = []
  · rw [if_pos hempty] at h
    simp at h
  · rw [if_neg hempty] at h
    by_cases hflat :
        (run_ops fresh_recording_service ops).audio_data.flatten = []
    · rw [if_pos hflat] at h
      simp at h
    · rw [if_neg hflat] at h
      simp only [Except.ok.injEq] at h
      refine ⟨?_, ?_, hinv.2⟩
      · rw [← h]
        rfl
      · rw [← h]
        simp

/-- C7, witness: two frames produced with nothing consumed — `stop_and_drain`
succeeds, the drain loop drains 0 chunks, the retained buffer equals the
capture-buffer concatenation, and the chunk left unread in the queue is an
element of the capture buffer. -/
theorem C7_drain_after_stop_witness :
    stop_and_drain (run_ops fresh_recording_service c7ops) = Except.ok c7r
    ∧ c7r.chunks_drained = 0
    ∧ c7r.retained = (run_ops fresh_recording_service c7ops).audio_data.flatten
    ∧ [0] ∈ (run_ops fresh_recording_service c7ops).audio_data :=
  ⟨by decide,
    (C7_drain_after_stop c7ops c7r (by decide)).1,
    (C7_drain_after_stop c7ops c7r (by decide)).2.1,
    (C7_drain_after_stop c7ops c7r (by decide)).2.2 [0] (by decide)⟩

/-- C8: contrary to the service docstring ("real-time volume level
detection") and the UI's expectation, `_audio_callback` never computes a
volume magnitude and never invokes the stored `_volume_callback`:
`start_recording` on a fresh service does store the supplied callback, yet
the callback-invocation log stays empty after any frame — on every
invocation of the per-frame callback, for every service state, zero volume
callbacks are made. -/
theorem C8_volume_callback_never_invoked :
    AudioRecordingService.init.start_recording true = Except.ok (c8service, true)
    ∧ c8service.has_volume_callback = true
    ∧ (∀ (s : AudioRecordingService) (f : Chunk) (ov : Bool),
        (s.audio_callback f ov).volume_calls = s.volume_calls)
    ∧ (c8service.audio_callback [1000, -1000] false).volume_calls = [] := by
  refine ⟨by decide, by decide, ?_, by decide⟩
  intro s f ov
  exact (audio_callback_preserves s f ov).2.2.2

/-- C9, counterexample: calling `start_recording` on a service already
recording returns normally (`Except.ok`, with no new capture started and the
state unchanged) — it does not fail with an `AlreadyRecording` error; the
source merely logs "Recording already in progress" and returns. -/
theorem C9_counterexample :
    fresh_recording_service.recording = true
    ∧ fresh_recording_service.start_recording false
        = Except.ok (fresh_recording_service, false)
    ∧ fresh_recording_service.start_recording false
        ≠ Except.error AudioError.alreadyRecording := by
  decide

/-- C9, amended: a `start_recording` call while a capture is already in
progress is a warn-and-return no-op: it raises no error, starts no new
capture, and leaves the service state unchanged. -/
theorem C9_reentrant_start_is_noop (s : AudioRecordingService) (vb : Bool)
    (h : s.recording = true) :
    s.start_recording vb = Except.ok (s, false) := by
  unfold AudioRecordingService.start_recording
  rw [if_pos h]

/-- C9, witness: the re-entrant start on a concrete recording service. -/
theorem C9_reentrant_start_is_noop_witness :
    fresh_recording_service.recording = true
    ∧ fresh_recording_service.start_recording true
        = Except.ok (fresh_recording_service, false) :=
  ⟨rfl, C9_reentrant_start_is_noop fresh_recording_service true rfl⟩
